import Mathlib

/-!
Verification of the plant-monitor evaluator found in `src/main.py` and
`src/main2.py`.  The embedding models the advisory generator
(`generate_plant_message`), the watering bookkeeping (`water_plant`,
the state set up in `__init__`) and the periodic tick
(`updateValues`) of both program variants.

Sensor values and timestamps are modelled as rational numbers (the
Python floats carry small decimal values; no floating-point rounding is
relevant to any threshold comparison considered here).  Timestamps are
measured in hours, matching `timedelta(hours=24)`.

The canned message strings are modelled by the inductive type `Msg`:
each constructor stands for one distinct string literal of the source,
and the `allIsWell` constructor stands for the fixed fallback string
appended when no rule triggers.  Since the eleven string literals in
the source are pairwise distinct, properties about membership and
equality of messages transfer verbatim.

A call `random.choice(messages)` draws a uniformly random element of
the list.  The random source is modelled as an explicit natural-number
input `k`; the drawn index is `k % messages.length`, so that as `k`
ranges over any full residue system the draw visits every index of the
list exactly once.
-/

namespace PlantMonitor

/-- One canned advisory string of the source, one constructor per
distinct string literal appended by `generate_plant_message`. -/
inductive Msg where
  | tooHot
  | tooCold
  | tooDry
  | tooHumid
  | needsWater
  | tooWet
  | tooDark
  | tooBright
  | tooAcidic
  | tooAlkaline
  | allIsWell
deriving DecidableEq

/-- The `sensor_data` dictionary: one sampled snapshot of the five
tracked metrics. -/
structure SensorReading where
  temperature : ℚ
  humidity : ℚ
  moisture : ℚ
  light : ℚ
  ph : ℚ
deriving DecidableEq

/-- Temperature rules of `generate_plant_message` (both variants):
`> 30` appends the hot message, elif `< 20` appends the cold message. -/
def tempMsgs (r : SensorReading) : List Msg :=
  if r.temperature > 30 then [Msg.tooHot]
  else if r.temperature < 20 then [Msg.tooCold]
  else []

/-- Humidity rules: `< 40` appends the dry message, elif `> 70` appends
the humid message. -/
def humidityMsgs (r : SensorReading) : List Msg :=
  if r.humidity < 40 then [Msg.tooDry]
  else if r.humidity > 70 then [Msg.tooHumid]
  else []

/-- Moisture rules: `< 30` appends the needs-water message, elif `> 80`
appends the too-wet message. -/
def moistureMsgs (r : SensorReading) : List Msg :=
  if r.moisture < 30 then [Msg.needsWater]
  else if r.moisture > 80 then [Msg.tooWet]
  else []

/-- Light rules: `< 300` appends the dark message, elif `> 800` appends
the bright message. -/
def lightMsgs (r : SensorReading) : List Msg :=
  if r.light < 300 then [Msg.tooDark]
  else if r.light > 800 then [Msg.tooBright]
  else []

/-- pH rules, present only in the `main2.py` variant: `< 6.0` appends
the acidic message, elif `> 7.0` appends the alkaline message. -/
def phMsgs (r : SensorReading) : List Msg :=
  if r.ph < 6 then [Msg.tooAcidic]
  else if r.ph > 7 then [Msg.tooAlkaline]
  else []

/-- The `messages` list built by `generate_plant_message` in
`src/main.py` (lines 103-123): temperature, humidity, moisture and
light rules in source order.  This variant has no pH rule. -/
def mainCandidates (r : SensorReading) : List Msg :=
  tempMsgs r ++ humidityMsgs r ++ moistureMsgs r ++ lightMsgs r

/-- The `messages` list built by `generate_plant_message` in
`src/main2.py` (lines 189-214): the same four rule groups followed by
the pH rules. -/
def main2Candidates (r : SensorReading) : List Msg :=
  mainCandidates r ++ phMsgs r

/-- Model of `random.choice(l)`: a uniformly random element of `l`,
with the random draw modelled as the explicit input `k`; the chosen
index is `k % l.length`.  (The default is never used: the source only
calls this with a non-empty list.) -/
def randomChoice (l : List Msg) (k : Nat) : Msg :=
  l.getD (k % l.length) Msg.allIsWell

/-- The method `generate_plant_message` of `src/main.py` (lines
103-128): build the candidate list, append the all-is-well message when
it is empty, then return `random.choice(messages)`. -/
def generate_plant_message (r : SensorReading) (k : Nat) : Msg :=
  let messages := mainCandidates r
  if messages = [] then Msg.allIsWell else randomChoice messages k

/-- The method `generate_plant_message` of `src/main2.py` (lines
189-219), same shape with the pH rules included. -/
def generate_plant_message2 (r : SensorReading) (k : Nat) : Msg :=
  let messages := main2Candidates r
  if messages = [] then Msg.allIsWell else randomChoice messages k

/-- The fixed pool of strings `generate_plant_message` of `src/main.py`
can ever return: its eight rule messages plus the all-is-well
fallback. -/
def mainPool : List Msg :=
  [Msg.tooHot, Msg.tooCold, Msg.tooDry, Msg.tooHumid, Msg.needsWater,
   Msg.tooWet, Msg.tooDark, Msg.tooBright, Msg.allIsWell]

/-- The fixed pool for the `main2.py` variant: additionally the two pH
messages. -/
def main2Pool : List Msg :=
  mainPool ++ [Msg.tooAcidic, Msg.tooAlkaline]

/-- The watering bookkeeping held by `PlantMonitorUI`: `last_watered`
and `watering_history` (timestamps in hours). -/
structure WateringState where
  lastWateredAt : ℚ
  history : List ℚ
deriving DecidableEq

/-- The watering interval: `timedelta(hours=24)`, hard-coded in both
variants. -/
def intervalHours : ℚ := 24

/-- The due check performed by `updateValues`
(`datetime.now() - self.last_watered > timedelta(hours=24)`), strict
inequality. -/
def isWateringDue (s : WateringState) (now : ℚ) : Bool :=
  now - s.lastWateredAt > intervalHours

/-- The method `water_plant` (both variants): set `last_watered` to the
current time and append it to `watering_history`. -/
def water_plant (s : WateringState) (now : ℚ) : WateringState :=
  { lastWateredAt := now, history := s.history ++ [now] }

/-- The state set up in `__init__`:
`last_watered = datetime.now() - timedelta(hours=24)` and an empty
`watering_history`.  `startTime` is the construction time. -/
def initialState (startTime : ℚ) : WateringState :=
  { lastWateredAt := startTime - intervalHours, history := [] }

/-- The watering step of the periodic tick `updateValues` (lines
161-162 of `src/main.py`, 249-250 of `src/main2.py`): water the plant
exactly when the due check passes.  The two clock reads of a tick are
modelled as the single timestamp `now` (the monotone-clock-within-tick
assumption). -/
def updateValues (s : WateringState) (now : ℚ) : WateringState :=
  if isWateringDue s now then water_plant s now else s

/-- N successive calls to `water_plant` with the given timestamps. -/
def recordMany (s : WateringState) (ts : List ℚ) : WateringState :=
  ts.foldl water_plant s

/-- The history invariant of the spec: `lastWateredAt` is the maximum
timestamp present in `history`, or the initial sentinel when `history`
is empty. -/
def wateringInvariant (sentinel : ℚ) (s : WateringState) : Prop :=
  (s.history = [] ∧ s.lastWateredAt = sentinel) ∨
  (s.lastWateredAt ∈ s.history ∧ ∀ t ∈ s.history, t ≤ s.lastWateredAt)

/-! ## Helper lemmas -/

theorem mem_tempMsgs_iff (r : SensorReading) (m : Msg) :
    m ∈ tempMsgs r ↔
      (m = Msg.tooHot ∧ r.temperature > 30) ∨
      (m = Msg.tooCold ∧ ¬ r.temperature > 30 ∧ r.temperature < 20) := by
  unfold tempMsgs; split_ifs <;> simp_all

theorem mem_humidityMsgs_iff (r : SensorReading) (m : Msg) :
    m ∈ humidityMsgs r ↔
      (m = Msg.tooDry ∧ r.humidity < 40) ∨
      (m = Msg.tooHumid ∧ ¬ r.humidity < 40 ∧ r.humidity > 70) := by
  unfold humidityMsgs; split_ifs <;> simp_all

theorem mem_moistureMsgs_iff (r : SensorReading) (m : Msg) :
    m ∈ moistureMsgs r ↔
      (m = Msg.needsWater ∧ r.moisture < 30) ∨
      (m = Msg.tooWet ∧ ¬ r.moisture < 30 ∧ r.moisture > 80) := by
  unfold moistureMsgs; split_ifs <;> simp_all

theorem mem_lightMsgs_iff (r : SensorReading) (m : Msg) :
    m ∈ lightMsgs r ↔
      (m = Msg.tooDark ∧ r.light < 300) ∨
      (m = Msg.tooBright ∧ ¬ r.light < 300 ∧ r.light > 800) := by
  unfold lightMsgs; split_ifs <;> simp_all

theorem mem_phMsgs_iff (r : SensorReading) (m : Msg) :
    m ∈ phMsgs r ↔
      (m = Msg.tooAcidic ∧ r.ph < 6) ∨
      (m = Msg.tooAlkaline ∧ ¬ r.ph < 6 ∧ r.ph > 7) := by
  unfold phMsgs; split_ifs <;> simp_all

theorem tooHumid_mem_main (r : SensorReading) :
    Msg.tooHumid ∈ mainCandidates r ↔ (¬ r.humidity < 40 ∧ r.humidity > 70) := by
  simp [mainCandidates, List.mem_append, mem_tempMsgs_iff, mem_humidityMsgs_iff,
    mem_moistureMsgs_iff, mem_lightMsgs_iff]

theorem tooDry_mem_main (r : SensorReading) :
    Msg.tooDry ∈ mainCandidates r ↔ r.humidity < 40 := by
  simp [mainCandidates, List.mem_append, mem_tempMsgs_iff, mem_humidityMsgs_iff,
    mem_moistureMsgs_iff, mem_lightMsgs_iff]

theorem tooWet_mem_main (r : SensorReading) :
    Msg.tooWet ∈ mainCandidates r ↔ (¬ r.moisture < 30 ∧ r.moisture > 80) := by
  simp [mainCandidates, List.mem_append, mem_tempMsgs_iff, mem_humidityMsgs_iff,
    mem_moistureMsgs_iff, mem_lightMsgs_iff]

theorem tooAcidic_mem_main2 (r : SensorReading) :
    Msg.tooAcidic ∈ main2Candidates r ↔ r.ph < 6 := by
  simp [main2Candidates, mainCandidates, List.mem_append, mem_tempMsgs_iff,
    mem_humidityMsgs_iff, mem_moistureMsgs_iff, mem_lightMsgs_iff, mem_phMsgs_iff]

theorem tooAlkaline_mem_main2 (r : SensorReading) :
    Msg.tooAlkaline ∈ main2Candidates r ↔ (¬ r.ph < 6 ∧ r.ph > 7) := by
  simp [main2Candidates, mainCandidates, List.mem_append, mem_tempMsgs_iff,
    mem_humidityMsgs_iff, mem_moistureMsgs_iff, mem_lightMsgs_iff, mem_phMsgs_iff]

theorem tooAcidic_not_mem_main (r : SensorReading) :
    Msg.tooAcidic ∉ mainCandidates r := by
  simp [mainCandidates, List.mem_append, mem_tempMsgs_iff, mem_humidityMsgs_iff,
    mem_moistureMsgs_iff, mem_lightMsgs_iff]

theorem tooAlkaline_not_mem_main (r : SensorReading) :
    Msg.tooAlkaline ∉ mainCandidates r := by
  simp [mainCandidates, List.mem_append, mem_tempMsgs_iff, mem_humidityMsgs_iff,
    mem_moistureMsgs_iff, mem_lightMsgs_iff]

theorem mem_mainCandidates_elim (r : SensorReading) (m : Msg) (h : m ∈ mainCandidates r) :
    m = Msg.tooHot ∨ m = Msg.tooCold ∨ m = Msg.tooDry ∨ m = Msg.tooHumid ∨
    m = Msg.needsWater ∨ m = Msg.tooWet ∨ m = Msg.tooDark ∨ m = Msg.tooBright := by
  simp only [mainCandidates, List.mem_append, mem_tempMsgs_iff, mem_humidityMsgs_iff,
    mem_moistureMsgs_iff, mem_lightMsgs_iff] at h
  tauto

theorem mem_main2Candidates_elim (r : SensorReading) (m : Msg) (h : m ∈ main2Candidates r) :
    m = Msg.tooHot ∨ m = Msg.tooCold ∨ m = Msg.tooDry ∨ m = Msg.tooHumid ∨
    m = Msg.needsWater ∨ m = Msg.tooWet ∨ m = Msg.tooDark ∨ m = Msg.tooBright ∨
    m = Msg.tooAcidic ∨ m = Msg.tooAlkaline := by
  simp only [main2Candidates, List.mem_append, mem_phMsgs_iff] at h
  rcases h with h | h
  · have := mem_mainCandidates_elim r m h
    tauto
  · tauto

theorem allIsWell_not_mem_main (r : SensorReading) : Msg.allIsWell ∉ mainCandidates r := by
  intro h
  rcases mem_mainCandidates_elim r _ h with h | h | h | h | h | h | h | h <;> exact absurd h (by decide)

theorem allIsWell_not_mem_main2 (r : SensorReading) : Msg.allIsWell ∉ main2Candidates r := by
  intro h
  rcases mem_main2Candidates_elim r _ h with h | h | h | h | h | h | h | h | h | h <;>
    exact absurd h (by decide)

theorem randomChoice_mem (l : List Msg) (k : Nat) (h : l ≠ []) : randomChoice l k ∈ l := by
  have hlen : 0 < l.length := List.length_pos.mpr h
  have hk : k % l.length < l.length := Nat.mod_lt _ hlen
  unfold randomChoice
  rw [List.getD_eq_getElem?_getD, List.getElem?_eq_getElem hk, Option.getD_some]
  exact List.getElem_mem hk

theorem randomChoice_eq_getD (l : List Msg) (i : Nat) (h : i < l.length) :
    randomChoice l i = l.getD i Msg.allIsWell := by
  unfold randomChoice
  rw [Nat.mod_eq_of_lt h]

theorem gen_mem (r : SensorReading) (k : Nat) (h : mainCandidates r ≠ []) :
    generate_plant_message r k ∈ mainCandidates r := by
  show (if mainCandidates r = [] then Msg.allIsWell else randomChoice (mainCandidates r) k) ∈ _
  rw [if_neg h]
  exact randomChoice_mem _ k h

theorem gen2_mem (r : SensorReading) (k : Nat) (h : main2Candidates r ≠ []) :
    generate_plant_message2 r k ∈ main2Candidates r := by
  show (if main2Candidates r = [] then Msg.allIsWell else randomChoice (main2Candidates r) k) ∈ _
  rw [if_neg h]
  exact randomChoice_mem _ k h

theorem recordMany_history (ts : List ℚ) :
    ∀ s, (recordMany s ts).history = s.history ++ ts := by
  induction ts with
  | nil => intro s; simp [recordMany]
  | cons t ts ih =>
    intro s
    show (recordMany (water_plant s t) ts).history = _
    rw [ih]
    simp [water_plant]

theorem recordMany_last (ts : List ℚ) :
    ∀ s, (recordMany s ts).lastWateredAt = ts.getLastD s.lastWateredAt := by
  induction ts with
  | nil => intro s; rfl
  | cons t ts ih =>
    intro s
    show (recordMany (water_plant s t) ts).lastWateredAt = _
    rw [ih, List.getLastD_cons]
    rfl

theorem water_plant_preserves_invariant (sentinel : ℚ) (s : WateringState) (now : ℚ)
    (hle : ∀ t ∈ s.history, t ≤ now) :
    wateringInvariant sentinel (water_plant s now) := by
  right
  constructor
  · simp [water_plant]
  · intro t ht
    simp only [water_plant, List.mem_append, List.mem_singleton] at ht
    rcases ht with ht | ht
    · simpa [water_plant] using hle t ht
    · simp [water_plant, ht]

/-! ## Claim theorems -/

/-- Claim C1: whenever the candidate set is non-empty, the advisory is a
single member of that set, chosen uniformly: the draw `k` selects index
`k % candidates.length`, and every candidate index is selected by the seed
equal to it (so a uniform seed induces a uniform choice over the
candidates).  For a reading with temperature 35 and all other metrics
nominal the result is always the hot message, and for temperature 35 with
humidity 20 the result is always one of the hot and dry messages, never
anything else. -/
theorem advisory_uniform_choice :
    (∀ r k, mainCandidates r ≠ [] →
      generate_plant_message r k ∈ mainCandidates r) ∧
    (∀ r k, mainCandidates r ≠ [] →
      generate_plant_message r k =
        (mainCandidates r).getD (k % (mainCandidates r).length) Msg.allIsWell) ∧
    (∀ r i, i < (mainCandidates r).length →
      generate_plant_message r i = (mainCandidates r).getD i Msg.allIsWell) ∧
    (∀ k, generate_plant_message ⟨35, 55, 60, 500, 6.5⟩ k = Msg.tooHot) ∧
    (∀ k, generate_plant_message ⟨35, 20, 60, 500, 6.5⟩ k = Msg.tooHot ∨
          generate_plant_message ⟨35, 20, 60, 500, 6.5⟩ k = Msg.tooDry) := by
  refine ⟨gen_mem, ?_, ?_, ?_, ?_⟩
  · intro r k h
    show (if mainCandidates r = [] then Msg.allIsWell else randomChoice (mainCandidates r) k) = _
    rw [if_neg h]
    rfl
  · intro r i h
    have hne : mainCandidates r ≠ [] :=
      List.length_pos.mp (Nat.lt_of_le_of_lt (Nat.zero_le i) h)
    show (if mainCandidates r = [] then Msg.allIsWell else randomChoice (mainCandidates r) i) = _
    rw [if_neg hne]
    exact randomChoice_eq_getD _ i h
  · intro k
    have hc : mainCandidates ⟨35, 55, 60, 500, 6.5⟩ = [Msg.tooHot] := by decide
    simp [generate_plant_message, hc, randomChoice, Nat.mod_one]
  · intro k
    have hc : mainCandidates ⟨35, 20, 60, 500, 6.5⟩ = [Msg.tooHot, Msg.tooDry] := by decide
    rcases Nat.mod_two_eq_zero_or_one k with hk | hk
    · left
      simp [generate_plant_message, hc, randomChoice, hk]
    · right
      simp [generate_plant_message, hc, randomChoice, hk]

/-- Witness for C1 at a concrete reading with one candidate. -/
theorem advisory_uniform_choice_witness :
    generate_plant_message ⟨35, 55, 60, 500, 6.5⟩ 3 ∈ mainCandidates ⟨35, 55, 60, 500, 6.5⟩ :=
  advisory_uniform_choice.1 ⟨35, 55, 60, 500, 6.5⟩ 3 (by decide)

/-- Claim C2: the advisory equals the fixed all-is-well message exactly when
no threshold rule triggers (the candidate set is empty), in both variants;
in particular the fully nominal reading (temperature 25, humidity 55,
moisture 60, light 500, pH 6.5) always produces the all-is-well message. -/
theorem advisory_all_is_well_iff_no_rule :
    (∀ r k, generate_plant_message r k = Msg.allIsWell ↔ mainCandidates r = []) ∧
    (∀ r k, generate_plant_message2 r k = Msg.allIsWell ↔ main2Candidates r = []) ∧
    (∀ k, generate_plant_message ⟨25, 55, 60, 500, 6.5⟩ k = Msg.allIsWell) ∧
    (∀ k, generate_plant_message2 ⟨25, 55, 60, 500, 6.5⟩ k = Msg.allIsWell) := by
  refine ⟨?_, ?_, ?_, ?_⟩
  · intro r k
    constructor
    · intro h
      by_contra hc
      exact allIsWell_not_mem_main r (h ▸ gen_mem r k hc)
    · intro h
      simp [generate_plant_message, h]
  · intro r k
    constructor
    · intro h
      by_contra hc
      exact allIsWell_not_mem_main2 r (h ▸ gen2_mem r k hc)
    · intro h
      simp [generate_plant_message2, h]
  · intro k
    have hc : mainCandidates ⟨25, 55, 60, 500, 6.5⟩ = [] := by decide
    simp [generate_plant_message, hc]
  · intro k
    have hc : main2Candidates ⟨25, 55, 60, 500, 6.5⟩ = [] := by
      norm_num [main2Candidates, mainCandidates, tempMsgs, humidityMsgs,
        moistureMsgs, lightMsgs, phMsgs]
    simp [generate_plant_message2, hc]

/-- Witness for C2 at a concrete reading with an empty candidate set. -/
theorem advisory_all_is_well_iff_no_rule_witness :
    generate_plant_message ⟨25, 55, 60, 500, 6.5⟩ 9 = Msg.allIsWell :=
  (advisory_all_is_well_iff_no_rule.1 ⟨25, 55, 60, 500, 6.5⟩ 9).mpr (by decide)

/-- Claim C3: the due check is true exactly when the elapsed duration
strictly exceeds the 24-hour interval; at exactly equal elapsed duration it
is false, and it is false immediately after watering at the same
timestamp. -/
theorem watering_due_strict_threshold :
    (∀ s now, isWateringDue s now = true ↔ now - s.lastWateredAt > intervalHours) ∧
    (∀ s now, now - s.lastWateredAt = intervalHours → isWateringDue s now = false) ∧
    (∀ s now, isWateringDue (water_plant s now) now = false) := by
  refine ⟨?_, ?_, ?_⟩
  · intro s now
    simp [isWateringDue]
  · intro s now h
    simp [isWateringDue, h]
  · intro s now
    simp [isWateringDue, water_plant, intervalHours]

/-- Witness for C3: at exactly 24 elapsed hours the due check is false. -/
theorem watering_due_strict_threshold_witness :
    isWateringDue ⟨0, []⟩ 24 = false :=
  watering_due_strict_threshold.2.1 ⟨0, []⟩ 24 (by norm_num [intervalHours])

/-- Counterexample to claim C4: the `main.py` variant has no pH rule at all,
so a reading with pH 5.0 (all other metrics nominal) yields no acidic
candidate — the candidate set is empty and the advisory is the all-is-well
message rather than the acidic message. -/
theorem main_ignores_ph_counterexample :
    mainCandidates ⟨25, 55, 60, 500, 5⟩ = [] ∧
    generate_plant_message ⟨25, 55, 60, 500, 5⟩ 0 = Msg.allIsWell := by decide

/-- Claim C4 as amended: the pH rules exist only in the `main2.py` variant,
where pH below 6.0 contributes exactly the acidic message and pH above 7.0
exactly the alkaline message, and otherwise pH contributes nothing; the
`main.py` variant ignores pH and never contributes a pH candidate. -/
theorem ph_rules_main2_only :
    (∀ r, Msg.tooAcidic ∈ main2Candidates r ↔ r.ph < 6) ∧
    (∀ r, Msg.tooAlkaline ∈ main2Candidates r ↔ r.ph > 7) ∧
    (∀ r, Msg.tooAcidic ∉ mainCandidates r ∧ Msg.tooAlkaline ∉ mainCandidates r) := by
  refine ⟨tooAcidic_mem_main2, ?_, fun r => ⟨tooAcidic_not_mem_main r, tooAlkaline_not_mem_main r⟩⟩
  intro r
  rw [tooAlkaline_mem_main2]
  constructor
  · rintro ⟨_, h⟩
    exact h
  · intro h
    exact ⟨by linarith, h⟩

/-- Witness for the amended C4 at a concrete acidic reading. -/
theorem ph_rules_main2_only_witness :
    Msg.tooAcidic ∈ main2Candidates ⟨25, 55, 60, 500, 5⟩ :=
  (ph_rules_main2_only.1 ⟨25, 55, 60, 500, 5⟩).mpr (by norm_num)

/-- Claim C5: `water_plant` sets `lastWateredAt` to the supplied timestamp
and appends that timestamp to the history; consequently, starting from an
empty history, N successive calls leave a history holding exactly the N
supplied timestamps in call order, with `lastWateredAt` equal to the last
appended one (and equal to the starting value when no call was made). -/
theorem record_watering_appends :
    (∀ s now, (water_plant s now).lastWateredAt = now ∧
      (water_plant s now).history = s.history ++ [now]) ∧
    (∀ init ts, init.history = [] →
      (recordMany init ts).history = ts ∧
      (recordMany init ts).history.length = ts.length ∧
      (recordMany init ts).lastWateredAt = ts.getLastD init.lastWateredAt) := by
  refine ⟨fun s now => ⟨rfl, rfl⟩, ?_⟩
  intro init ts hinit
  have h1 : (recordMany init ts).history = ts := by
    rw [recordMany_history, hinit]
    simp
  exact ⟨h1, by rw [h1], recordMany_last ts init⟩

/-- Witness for C5: three waterings from an empty history. -/
theorem record_watering_appends_witness :
    (recordMany ⟨0, []⟩ [1, 2, 3]).history = [1, 2, 3] :=
  (record_watering_appends.2 ⟨0, []⟩ [1, 2, 3] rfl).1

/-- Claim C6: the invariant that `lastWateredAt` is the maximum timestamp
present in `history` (or the initial sentinel when the history is empty)
holds for the `__init__` state and is preserved by `water_plant` and by the
automatic watering step of the tick, under the assumption that supplied
timestamps are non-decreasing (every timestamp already in the history is at
most the new one). -/
theorem watering_invariant_preserved :
    (∀ start, wateringInvariant (start - intervalHours) (initialState start)) ∧
    (∀ sentinel s now, wateringInvariant sentinel s → (∀ t ∈ s.history, t ≤ now) →
      wateringInvariant sentinel (water_plant s now)) ∧
    (∀ sentinel s now, wateringInvariant sentinel s → (∀ t ∈ s.history, t ≤ now) →
      wateringInvariant sentinel (updateValues s now)) := by
  refine ⟨?_, ?_, ?_⟩
  · intro start
    exact Or.inl ⟨rfl, rfl⟩
  · intro sentinel s now _ hle
    exact water_plant_preserves_invariant sentinel s now hle
  · intro sentinel s now hinv hle
    unfold updateValues
    split_ifs with h
    · exact water_plant_preserves_invariant sentinel s now hle
    · exact hinv

/-- Witness for C6: the invariant survives a watering of a fresh state. -/
theorem watering_invariant_preserved_witness :
    wateringInvariant 0 (water_plant ⟨0, []⟩ 5) :=
  watering_invariant_preserved.2.1 0 ⟨0, []⟩ 5 (Or.inl ⟨rfl, rfl⟩) (by simp)

/-- Counterexample to claim C7: an out-of-range humidity of 150 (above the
documented range [0,100]) does match a threshold rule — the high-humidity
rule `> 70` — and contributes the humid message to the candidate set, which
the advisory then returns. -/
theorem out_of_range_matches_counterexample :
    Msg.tooHumid ∈ mainCandidates ⟨25, 150, 60, 500, 6.5⟩ ∧
    generate_plant_message ⟨25, 150, 60, 500, 6.5⟩ 0 = Msg.tooHumid := by decide

/-- Claim C7 as amended: out-of-range values are not rejected, but they do
not fail to match the rules either — a field beyond its documented range
matches the same open-ended comparison as any in-range value on that side
of the band, and so still contributes the corresponding candidate
(humidity above 100 the humid message, humidity below 0 the dry message,
moisture above 100 the wet message, pH above 14 the alkaline message in
the `main2.py` variant); evaluation never fails on such input. -/
theorem out_of_range_follows_thresholds :
    (∀ r, r.humidity > 100 → Msg.tooHumid ∈ mainCandidates r) ∧
    (∀ r, r.humidity < 0 → Msg.tooDry ∈ mainCandidates r) ∧
    (∀ r, r.moisture > 100 → Msg.tooWet ∈ mainCandidates r) ∧
    (∀ r, r.ph > 14 → Msg.tooAlkaline ∈ main2Candidates r) := by
  refine ⟨?_, ?_, ?_, ?_⟩
  · intro r h
    exact (tooHumid_mem_main r).mpr ⟨by linarith, by linarith⟩
  · intro r h
    exact (tooDry_mem_main r).mpr (by linarith)
  · intro r h
    exact (tooWet_mem_main r).mpr ⟨by linarith, by linarith⟩
  · intro r h
    exact (tooAlkaline_mem_main2 r).mpr ⟨by linarith, by linarith⟩

/-- Witness for the amended C7 at humidity 150. -/
theorem out_of_range_follows_thresholds_witness :
    Msg.tooHumid ∈ mainCandidates ⟨25, 150, 60, 500, 7⟩ :=
  out_of_range_follows_thresholds.1 ⟨25, 150, 60, 500, 7⟩ (by norm_num)

/-- Claim C8: the advisory generator is deterministic given its random
source — two calls with an identical reading and an identical random draw
return the identical message, in both variants. -/
theorem advisory_deterministic (r₁ r₂ : SensorReading) (k₁ k₂ : Nat)
    (hr : r₁ = r₂) (hk : k₁ = k₂) :
    generate_plant_message r₁ k₁ = generate_plant_message r₂ k₂ ∧
    generate_plant_message2 r₁ k₁ = generate_plant_message2 r₂ k₂ := by
  subst hr
  subst hk
  exact ⟨rfl, rfl⟩

/-- Witness for C8 at a concrete reading and draw. -/
theorem advisory_deterministic_witness :
    generate_plant_message ⟨35, 55, 60, 500, 6.5⟩ 2 =
      generate_plant_message ⟨35, 55, 60, 500, 6.5⟩ 2 :=
  (advisory_deterministic ⟨35, 55, 60, 500, 6.5⟩ ⟨35, 55, 60, 500, 6.5⟩ 2 2 rfl rfl).1

/-- Claim C9: immediately after a tick the watering-due condition is false:
the tick waters automatically whenever more than 24 hours have elapsed, so
in the post-tick state the elapsed time since `lastWateredAt` is at most 24
hours, and the due condition never persists across a tick. -/
theorem tick_clears_due (s : WateringState) (now : ℚ) :
    isWateringDue (updateValues s now) now = false ∧
    now - (updateValues s now).lastWateredAt ≤ intervalHours := by
  unfold updateValues
  split_ifs with h
  · constructor
    · simp [isWateringDue, water_plant, intervalHours]
    · norm_num [water_plant, intervalHours]
  · have h2 : ¬ intervalHours < now - s.lastWateredAt := by
      simpa [isWateringDue] using h
    constructor
    · simpa [isWateringDue] using h2
    · linarith [not_lt.mp h2]

/-- Witness for C9: a tick on an overdue fresh state leaves it not due. -/
theorem tick_clears_due_witness :
    isWateringDue (updateValues ⟨0, []⟩ 30) 30 = false :=
  (tick_clears_due ⟨0, []⟩ 30).1

/-- Claim C10: each metric contributes at most one candidate (the low and
high branches of a metric are mutually exclusive), the candidate set has at
most 4 elements in the `main.py` variant and at most 5 in the `main2.py`
variant, and the returned message always belongs to the fixed finite pool
of canned messages of the respective variant. -/
theorem candidate_bound_and_canned_pool :
    (∀ r, (mainCandidates r).length ≤ 4) ∧
    (∀ r, (main2Candidates r).length ≤ 5) ∧
    (∀ r, ¬(Msg.tooHot ∈ main2Candidates r ∧ Msg.tooCold ∈ main2Candidates r)) ∧
    (∀ r, ¬(Msg.tooDry ∈ main2Candidates r ∧ Msg.tooHumid ∈ main2Candidates r)) ∧
    (∀ r, ¬(Msg.needsWater ∈ main2Candidates r ∧ Msg.tooWet ∈ main2Candidates r)) ∧
    (∀ r, ¬(Msg.tooDark ∈ main2Candidates r ∧ Msg.tooBright ∈ main2Candidates r)) ∧
    (∀ r, ¬(Msg.tooAcidic ∈ main2Candidates r ∧ Msg.tooAlkaline ∈ main2Candidates r)) ∧
    (∀ r k, generate_plant_message r k ∈ mainPool) ∧
    (∀ r k, generate_plant_message2 r k ∈ main2Pool) := by
  refine ⟨?_, ?_, ?_, ?_, ?_, ?_, ?_, ?_, ?_⟩
  · intro r
    unfold mainCandidates tempMsgs humidityMsgs moistureMsgs lightMsgs
    split_ifs <;> simp
  · intro r
    unfold main2Candidates mainCandidates tempMsgs humidityMsgs moistureMsgs lightMsgs phMsgs
    split_ifs <;> simp
  · rintro r ⟨h1, h2⟩
    simp [main2Candidates, mainCandidates, List.mem_append, mem_tempMsgs_iff,
      mem_humidityMsgs_iff, mem_moistureMsgs_iff, mem_lightMsgs_iff, mem_phMsgs_iff] at h1 h2
    obtain ⟨h2a, h2b⟩ := h2
    linarith
  · rintro r ⟨h1, h2⟩
    simp [main2Candidates, mainCandidates, List.mem_append, mem_tempMsgs_iff,
      mem_humidityMsgs_iff, mem_moistureMsgs_iff, mem_lightMsgs_iff, mem_phMsgs_iff] at h1 h2
    obtain ⟨h2a, h2b⟩ := h2
    linarith
  · rintro r ⟨h1, h2⟩
    simp [main2Candidates, mainCandidates, List.mem_append, mem_tempMsgs_iff,
      mem_humidityMsgs_iff, mem_moistureMsgs_iff, mem_lightMsgs_iff, mem_phMsgs_iff] at h1 h2
    obtain ⟨h2a, h2b⟩ := h2
    linarith
  · rintro r ⟨h1, h2⟩
    simp [main2Candidates, mainCandidates, List.mem_append, mem_tempMsgs_iff,
      mem_humidityMsgs_iff, mem_moistureMsgs_iff, mem_lightMsgs_iff, mem_phMsgs_iff] at h1 h2
    obtain ⟨h2a, h2b⟩ := h2
    linarith
  · rintro r ⟨h1, h2⟩
    simp [main2Candidates, mainCandidates, List.mem_append, mem_tempMsgs_iff,
      mem_humidityMsgs_iff, mem_moistureMsgs_iff, mem_lightMsgs_iff, mem_phMsgs_iff] at h1 h2
    obtain ⟨h2a, h2b⟩ := h2
    linarith
  · intro r k
    by_cases hc : mainCandidates r = []
    · simp [generate_plant_message, hc, mainPool]
    · rcases mem_mainCandidates_elim r _ (gen_mem r k hc) with h | h | h | h | h | h | h | h <;>
        simp [mainPool, h]
  · intro r k
    by_cases hc : main2Candidates r = []
    · simp [generate_plant_message2, hc, main2Pool, mainPool]
    · rcases mem_main2Candidates_elim r _ (gen2_mem r k hc) with h | h | h | h | h | h | h | h | h | h <;>
        simp [main2Pool, mainPool, h]

/-- Witness for C10 at a concrete reading and draw. -/
theorem candidate_bound_and_canned_pool_witness :
    generate_plant_message ⟨35, 55, 60, 500, 6.5⟩ 1 ∈ mainPool :=
  candidate_bound_and_canned_pool.2.2.2.2.2.2.2.1 ⟨35, 55, 60, 500, 6.5⟩ 1

end PlantMonitor
